import Mathlib

/-!
Verification of the tracker-api receipt pipeline (shallow embedding).

The definitions below are translated from the repository's Python sources:
  app/services/validation_service.py
  app/services/parsing_service.py
  app/services/extraction_service.py
  app/services/supabase_service.py
  app/api/v1/ingest.py, app/api/v1/extract.py, app/api/v1/write.py

Python runtime values that the pipeline passes around (parsed fields,
normalized json) are modelled by the inductive type `PyVal`; Python numbers
are modelled by exact rationals (the pipeline only compares, adds and
subtracts them), `None` by `PyVal.none`, and dictionaries by association
lists with distinct keys.  External collaborators (the Supabase store, the
transaction-creation RPC, the pdfminer text probe, the OCR provider and the
sha256 routine from Python's standard library) are passed in as function
parameters, so each embedded operation is a pure function of its inputs and
of the collaborator behaviour.
-/

namespace TrackerApi

/-- A Python runtime value as the pipeline manipulates it: `None`, strings,
numbers (modelled as exact rationals), booleans, dicts and lists. -/
inductive PyVal where
  | none : PyVal
  | str (s : String) : PyVal
  | num (q : ℚ) : PyVal
  | bool (b : Bool) : PyVal
  | dict (entries : List (String × PyVal)) : PyVal
  | list (entries : List PyVal) : PyVal

/-- Python truthiness (`if x:`): `None`, empty strings, zero, `False` and
empty containers are falsy. -/
def PyVal.truthy : PyVal → Bool
  | .none => false
  | .str s => !(s == "")
  | .num q => !(q == 0)
  | .bool b => b
  | .dict l => !l.isEmpty
  | .list l => !l.isEmpty

/-- Rendering of a rational as a stand-in for Python's `str()` on numbers.
No theorem below depends on the exact rendering, only on its determinism. -/
def ratStr (q : ℚ) : String :=
  if q.den = 1 then toString q.num else toString q.num ++ "/" ++ toString q.den

/-- Stand-in for Python's `str()` / f-string conversion.  Faithful on the
values the pipeline actually formats (`None`, strings, booleans); numeric
and composite renderings are deterministic stand-ins. -/
def PyVal.pyStr : PyVal → String
  | .none => "None"
  | .str s => s
  | .num q => ratStr q
  | .bool b => if b then "True" else "False"
  | .dict _ => "dict"
  | .list _ => "list"

/-- Lookup in a Python dict modelled as an association list (`d[k]` /
`k in d`): `Option.none` when the key is absent. -/
def dictGet : List (String × PyVal) → String → Option PyVal
  | [], _ => Option.none
  | (k, v) :: rest, key => if k = key then Option.some v else dictGet rest key

/-- Python's `d.get(k, default)`. -/
def pyGetD (d : List (String × PyVal)) (k : String) (dft : PyVal) : PyVal :=
  (dictGet d k).getD dft

/-- A parsed-fields dictionary (`fields` / `parsed_data` / `normalized_json`
in the source). -/
abbrev Fields := List (String × PyVal)

/-- Python numeric coercion as used by arithmetic and comparisons: numbers
are themselves, booleans are 0/1, everything else raises `TypeError`
(returned as `Option.none` here). -/
def asNum : PyVal → Option ℚ
  | .num q => Option.some q
  | .bool b => Option.some (if b then 1 else 0)
  | _ => Option.none

/-- The test `value is None or value == ""` from `validate_schema`. -/
def isNoneOrEmptyStr : PyVal → Bool
  | .none => true
  | .str s => s == ""
  | _ => false

/-- `ValidationReason` from app/models/document.py: a code and a message. -/
structure ValidationReason where
  code : String
  msg : String
deriving Repr, DecidableEq

/-- Two-decimal rendering standing in for Python's `f"{x:.2f}"`.  No theorem
depends on the exact rounding. -/
def fmt2 (q : ℚ) : String :=
  let n : ℤ := ⌊q * 100 + 1/2⌋
  let ip := n / 100
  let fp := (n % 100).natAbs
  toString ip ++ "." ++ (if fp < 10 then "0" else "") ++ toString fp

/-- `settings.TOTALS_TOLERANCE` (default 0.01 in app/core/config.py). -/
def TOTALS_TOLERANCE : ℚ := 1 / 100

/-- The `required_fields` list of `validate_schema`. -/
def required_fields : List String := [ "merchant", "date", "total" ]

/-- `validate_schema` from validation_service.py: each of merchant, date and
total must be present (`MISSING_FIELD`) and, when it is a dict, its `value`
must be neither `None` nor the empty string (`EMPTY_FIELD`). -/
def validate_schema (fields : Fields) : List ValidationReason :=
  required_fields.foldl
    (fun errors field =>
      match dictGet fields field with
      | Option.none =>
          errors ++ [⟨ "MISSING_FIELD", "Required field '" ++ field ++ "' is missing"⟩]
      | Option.some (.dict d) =>
          let value := (dictGet d "value").getD .none
          if isNoneOrEmptyStr value then
            errors ++ [⟨ "EMPTY_FIELD", "Required field '" ++ field ++ "' is empty"⟩]
          else errors
      | Option.some _ => errors)
    []

/-- The extraction pattern `fields.get(k, {}).get('value') if k in fields
else None` used by `validate_math`, `validate_date` and `validate_currency`.
When the stored field is not a dict the attribute access raises
(`AttributeError`), returned here as `Except.error`. -/
def getValueField (fields : Fields) (k : String) : Except String (Option PyVal) :=
  match dictGet fields k with
  | Option.none => .ok Option.none
  | Option.some (.dict d) => .ok (dictGet d "value")
  | Option.some _ => .error "AttributeError"

/-- The body of the items-vs-subtotal check at the end of `validate_math`:
`sum(item.get('amount', 0) for item in items)` compared against the
subtotal.  Errors are Python exceptions reaching the enclosing handler. -/
def itemsAmountSum : List PyVal → Except String ℚ
  | [] => .ok 0
  | it :: rest =>
      match it with
      | .dict d =>
          match asNum (pyGetD d "amount" (.num 0)) with
          | Option.some a => (itemsAmountSum rest).map (fun s => a + s)
          | Option.none => .error "TypeError"
      | _ => .error "AttributeError"

/-- The two total-value checks of `validate_math` (`total <= 0` and
`total > 100000`). -/
def totalChecks (total : ℚ) : List ValidationReason :=
  (if total ≤ 0 then
    [⟨ "INVALID_TOTAL", "Total must be positive, got " ++ ratStr total⟩]
  else []) ++
  (if total > 100000 then
    [⟨ "TOTAL_TOO_HIGH", "Total " ++ ratStr total ++ " seems unreasonably high"⟩]
  else [])

/-- The subtotal + tax ≈ total block of `validate_math`, run when both are
non-None; non-numeric values raise out of it (carrying the reasons collected
so far). -/
def mathCheck (subtotalOpt taxOpt : Option PyVal) (total : ℚ)
    (errs2 : List ValidationReason) :
    Except (List ValidationReason × String) (List ValidationReason) :=
  match subtotalOpt, taxOpt with
  | Option.some sv, Option.some tv =>
      match asNum sv, asNum tv with
      | Option.some s, Option.some t =>
          .ok (errs2 ++
            (if |s + t - total| > TOTALS_TOLERANCE then
              [⟨ "MATH_ERROR",
                 "Subtotal (" ++ ratStr s ++ ") + Tax (" ++ ratStr t ++ ") = " ++
                 ratStr (s + t) ++ " ≠ Total (" ++ ratStr total ++ "), diff: " ++
                 ratStr |s + t - total|⟩]
            else []))
      | _, _ => .error (errs2, "TypeError")
  | _, _ => .ok errs2

/-- The items-sum-vs-subtotal block of `validate_math`, run when the items
value is truthy and the subtotal non-None. -/
def itemsCheck (fields : Fields) (subtotalOpt : Option PyVal)
    (errs3 : List ValidationReason) :
    Except (List ValidationReason × String) (List ValidationReason) :=
  match pyGetD fields "items" (.list []) with
  | .list its =>
      match subtotalOpt with
      | Option.some sv =>
          if its.isEmpty then .ok errs3
          else
            match itemsAmountSum its with
            | .error e => .error (errs3, e)
            | .ok itemsTotal =>
              match asNum sv with
              | Option.none => .error (errs3, "TypeError")
              | Option.some s =>
                  .ok (errs3 ++
                    (if |itemsTotal - s| > TOTALS_TOLERANCE then
                      [⟨ "ITEMS_MISMATCH",
                         "Items total (" ++ ratStr itemsTotal ++ ") ≠ Subtotal (" ++
                         ratStr s ++ "), diff: " ++ ratStr |itemsTotal - s|⟩]
                    else []))
      | Option.none => .ok errs3
  | v =>
      if v.truthy ∧ subtotalOpt.isSome then .error (errs3, "TypeError")
      else .ok errs3

/-- The `try:` body of `validate_math`; `Except.error` carries the reasons
accumulated before the exception together with the exception text. -/
def validate_math_go (fields : Fields) :
    Except (List ValidationReason × String) (List ValidationReason) :=
  match getValueField fields "subtotal" with
  | .error e => .error ([], e)
  | .ok subtotalOpt =>
  match getValueField fields "tax" with
  | .error e => .error ([], e)
  | .ok taxOpt =>
  match getValueField fields "total" with
  | .error e => .error ([], e)
  | .ok totalOpt =>
  match totalOpt with
  | Option.none => .ok []
  | Option.some totalV =>
    match asNum totalV with
    | Option.none => .error ([], "TypeError")
    | Option.some total =>
      match mathCheck subtotalOpt taxOpt total (totalChecks total) with
      | .error e => .error e
      | .ok errs3 => itemsCheck fields subtotalOpt errs3

/-- `validate_math` from validation_service.py: total must be positive and
at most 100000; subtotal + tax must match total within tolerance; item
amounts must sum to the subtotal within tolerance.  Any exception inside the
rule is caught and reported as a `VALIDATION_ERROR` reason. -/
def validate_math (fields : Fields) : List ValidationReason :=
  match validate_math_go fields with
  | .ok errs => errs
  | .error (errs, e) =>
      errs ++ [⟨ "VALIDATION_ERROR", "Math validation failed: " ++ e⟩]

/-- Characters Python's `str.strip()` removes by default (the ASCII
whitespace set; exotic unicode spaces are not modelled). -/
def isPySpace (c : Char) : Bool :=
  c = ' ' ∨ c = '\t' ∨ c = '\n' ∨ c = '\x0d' ∨ c = '\x0b' ∨ c = '\x0c'

/-- Python's `s.strip()`. -/
def pyStrip (s : String) : String :=
  String.mk (((s.data.dropWhile isPySpace).reverse.dropWhile isPySpace).reverse)

/-- Split a character list at every occurrence of `sep` (Python's
`s.split(sep)` for a one-character separator, as `strptime` effectively does
on the dashes of `%Y-%m-%d`). -/
def charSplit (sep : Char) : List Char → List (List Char)
  | [] => [[]]
  | c :: rest =>
      let tail := charSplit sep rest
      if c = sep then [] :: tail
      else
        match tail with
        | [] => [[c]]
        | h :: t => (c :: h) :: t

/-- Gregorian leap-year rule, as Python's `datetime` uses it. -/
def isLeap (y : Nat) : Bool :=
  y % 4 = 0 ∧ (y % 100 ≠ 0 ∨ y % 400 = 0)

/-- Length of a month in Python's `datetime` calendar. -/
def daysInMonth (y m : Nat) : Nat :=
  if m = 2 then (if isLeap y then 29 else 28)
  else if m = 4 ∨ m = 6 ∨ m = 9 ∨ m = 11 then 30
  else 31

/-- Numeric value of a digit sequence. -/
def natOfDigits (cs : List Char) : Nat :=
  cs.foldl (fun n c => n * 10 + (c.toNat - 48)) 0

/-- `datetime.strptime(date_str, '%Y-%m-%d')`: a four-digit year and one- or
two-digit month and day joined by dashes with nothing else, the whole string
also being a valid proleptic-Gregorian date (CPython validates the day
against the month when it builds the `datetime`).  `Option.none` is the
`ValueError` path. -/
def strptimeYmd (s : String) : Option (Nat × Nat × Nat) :=
  match charSplit '-' s.data with
  | [ys, ms, ds] =>
      if ys.length = 4 ∧ ys.all Char.isDigit ∧
         1 ≤ ms.length ∧ ms.length ≤ 2 ∧ ms.all Char.isDigit ∧
         1 ≤ ds.length ∧ ds.length ≤ 2 ∧ ds.all Char.isDigit then
        let y := natOfDigits ys
        let m := natOfDigits ms
        let d := natOfDigits ds
        if 1 ≤ y ∧ 1 ≤ m ∧ m ≤ 12 ∧ 1 ≤ d ∧ d ≤ daysInMonth y m then
          Option.some (y, m, d)
        else Option.none
      else Option.none
  | _ => Option.none

/-- Days from 1970-01-01 to the given proleptic-Gregorian date (the civil
calendar arithmetic behind Python's `datetime` subtraction); only called on
valid dates, whose year is at least 1. -/
def days_from_civil (y m d : ℤ) : ℤ :=
  let y' := if m ≤ 2 then y - 1 else y
  let era := y' / 400
  let yoe := y' - era * 400
  let doy := (153 * (m + (if m > 2 then (-3 : ℤ) else 9)) + 2) / 5 + d - 1
  let doe := yoe * 365 + yoe / 4 - yoe / 100 + doy
  era * 146097 + doe - 719468

/-- The timestamp of `datetime.strptime(s, '%Y-%m-%d')` in seconds: midnight
of the parsed day. -/
def midnightSec (ymd : Nat × Nat × Nat) : ℤ :=
  days_from_civil ymd.1 ymd.2.1 ymd.2.2 * 86400

/-- Seconds in 1825 days (`timedelta(days=365 * 5)` from `validate_date`). -/
def FIVE_YEARS_SEC : ℤ := 1825 * 86400

/-- `validate_date` from validation_service.py, with `now` the value of
`datetime.now()` as seconds since the epoch (the current instant, not just
the current day).  A missing or falsy date yields no reason; an unparsable
string yields `INVALID_DATE_FORMAT`; a parsed date is compared, as a
midnight timestamp, against `now` (`FUTURE_DATE`) and against
`now - 1825 days` (`DATE_TOO_OLD`).  Exceptions inside the rule (a non-dict
field, a non-string truthy date) are caught and reported as
`VALIDATION_ERROR`. -/
def validate_date (fields : Fields) (now : ℤ) : List ValidationReason :=
  match dictGet fields "date" with
  | Option.none => []
  | Option.some (.dict d) =>
      let dateVal := (dictGet d "value").getD .none
      if !dateVal.truthy then []
      else
        match dateVal with
        | .str s =>
            match strptimeYmd s with
            | Option.none =>
                [⟨ "INVALID_DATE_FORMAT", "Date '" ++ s ++ "' is not in YYYY-MM-DD format"⟩]
            | Option.some ymd =>
                (if midnightSec ymd > now then
                  [⟨ "FUTURE_DATE", "Transaction date " ++ s ++ " is in the future"⟩]
                else []) ++
                (if midnightSec ymd < now - FIVE_YEARS_SEC then
                  [⟨ "DATE_TOO_OLD", "Transaction date " ++ s ++ " is more than 5 years old"⟩]
                else [])
        | _ => [⟨ "VALIDATION_ERROR", "Date validation failed: TypeError"⟩]
  | Option.some _ => [⟨ "VALIDATION_ERROR", "Date validation failed: AttributeError"⟩]

/-- The `supported_currencies` whitelist of `validate_currency`. -/
def supported_currencies : List String :=
  [ "MYR", "USD", "SGD", "EUR", "GBP", "JPY", "CNY" ]

/-- `validate_currency` from validation_service.py.  This rule runs outside
any handler, so a non-dict currency field propagates its `AttributeError`
out of `validate_parsed_data`. -/
def validate_currency (fields : Fields) : Except String (List ValidationReason) :=
  match dictGet fields "currency" with
  | Option.none => .ok []
  | Option.some (.dict d) =>
      let currency := (dictGet d "value").getD .none
      let isSupported :=
        match currency with
        | .str c => supported_currencies.contains c
        | _ => false
      if currency.truthy && !isSupported then
        .ok [⟨ "UNSUPPORTED_CURRENCY",
               "Currency '" ++ currency.pyStr ++
               "' is not supported. Supported: MYR, USD, SGD, EUR, GBP, JPY, CNY"⟩]
      else .ok []
  | Option.some _ => .error "AttributeError"

/-- `calculate_overall_confidence` from parsing_service.py: the mean of the
`confidence` entries of the critical fields stored as dicts (an absent
`confidence` key counts as 0.0), 0.5 when no critical field is a dict, and
0.5 again when summing raises (a non-numeric confidence). -/
def calculate_overall_confidence (fields : Fields) : ℚ :=
  let confidences := required_fields.filterMap
    (fun f =>
      match dictGet fields f with
      | Option.some (.dict d) => Option.some (pyGetD d "confidence" (.num 0))
      | _ => Option.none)
  if confidences.isEmpty then 1 / 2
  else
    match confidences.mapM asNum with
    | Option.some qs => qs.sum / (qs.length : ℚ)
    | Option.none => 1 / 2

/-- The codes treated as critical by the status-precedence step of
`validate_parsed_data`. -/
def criticalCodes : List String :=
  [ "MISSING_FIELD", "INVALID_TOTAL", "FUTURE_DATE", "DUPLICATE" ]

/-- The reason appended when the duplicate lookup is positive. -/
def duplicateReason : ValidationReason :=
  ⟨ "DUPLICATE", "A document with this signature already exists"⟩

/-- The reason synthesized when the overall confidence is below 0.70. -/
def lowConfidenceReason (overall : ℚ) : ValidationReason :=
  ⟨ "LOW_CONFIDENCE",
    "Overall confidence (" ++ fmt2 overall ++ ") is below threshold (0.70)"⟩

/-- The `(status, reasons, badges)` triple returned by
`validate_parsed_data`. -/
structure VResult where
  status : String
  reasons : List ValidationReason
  badges : List (String × String)
deriving Repr, DecidableEq

/-- `validate_parsed_data` from validation_service.py.  The duplicate lookup
(`check_duplicate`, backed by the external store) is the parameter `dup`;
`now` is the current instant for the date rule.  The four rules run and
their reasons are collected; a positive duplicate lookup appends `DUPLICATE`
and returns `rejected` at once (skipping the confidence step and the
badges); otherwise the status follows the critical-code / any-reason /
low-confidence precedence. -/
def validate_parsed_data (fields : Fields) (signature : String)
    (dup : String → Bool) (now : ℤ) : Except String VResult :=
  match validate_currency fields with
  | .error e => .error e
  | .ok currencyErrs =>
    let reasons :=
      validate_schema fields ++ validate_math fields ++
      validate_date fields now ++ currencyErrs
    if dup signature then
      .ok ⟨ "rejected", reasons ++ [duplicateReason], []⟩
    else
      let overall := calculate_overall_confidence fields
      let hasCritical := reasons.any (fun r => criticalCodes.contains r.code)
      let step :=
        if hasCritical then ( "rejected", reasons, "🚫 Rejected" )
        else if !reasons.isEmpty then ( "needs_review", reasons, "⚠️ Needs Review" )
        else if overall < 7 / 10 then
          ( "needs_review", reasons ++ [lowConfidenceReason overall], "⚠️ Low Confidence" )
        else ( "approved", reasons, "✅ Auto-Approved" )
      let confBadge :=
        if overall ≥ 9 / 10 then "🟢 High"
        else if overall ≥ 7 / 10 then "🟡 Medium"
        else "🔴 Low"
      .ok ⟨ step.1, step.2.1, [("status", step.2.2), ("confidence", confBadge)]⟩

/-- The merchant component of the semantic signature, from
`parse_receipt_with_llm` (parsing_service.py): the field dict's `value` with
default `'unknown'`, `str()` of a truthy non-dict, `'unknown'` otherwise. -/
def extracted_merchant (pd : Fields) : PyVal :=
  match pyGetD pd "merchant" (.dict []) with
  | .dict d => pyGetD d "value" (.str "unknown")
  | v => if v.truthy then .str v.pyStr else .str "unknown"

/-- The date component of the semantic signature, same shape as the
merchant component. -/
def extracted_date (pd : Fields) : PyVal :=
  match pyGetD pd "date" (.dict []) with
  | .dict d => pyGetD d "value" (.str "unknown")
  | v => if v.truthy then .str v.pyStr else .str "unknown"

/-- The total component of the semantic signature: the field dict's `value`
with default 0, a truthy non-dict unchanged, 0 otherwise. -/
def extracted_total (pd : Fields) : PyVal :=
  match pyGetD pd "total" (.dict []) with
  | .dict d => pyGetD d "value" (.num 0)
  | v => if v.truthy then v else .num 0

/-- `signature_str = f"{merchant}|{date}|{total}"`. -/
def signature_str (pd : Fields) : String :=
  (extracted_merchant pd).pyStr ++ "|" ++ (extracted_date pd).pyStr ++ "|" ++
  (extracted_total pd).pyStr

/-- `hashlib.sha256(signature_str.encode()).hexdigest()`, with the sha256
hexdigest routine (a deterministic standard-library function) passed in as
`hash`. -/
def semantic_signature (hash : String → String) (pd : Fields) : String :=
  hash (signature_str pd)

/-- The value extraction of the inconsistencies block of
`parse_receipt_with_llm`: `f.get('value') if isinstance(f, dict) else f`
applied to `parsed_data.get(k, {})` — never raises. -/
def rawValue (pd : Fields) (k : String) : PyVal :=
  match pyGetD pd k (.dict []) with
  | .dict d => (dictGet d "value").getD .none
  | v => v

/-- The inconsistencies computation of `parse_receipt_with_llm` (lines
254-272): only when subtotal, tax and total are all truthy is
`subtotal + tax` compared against the total; the arithmetic on non-numeric
truthy values raises out of the parse (`Except.error`). -/
def inconsistencies_of (pd : Fields) : Except String (List String) :=
  let s := rawValue pd "subtotal"
  let t := rawValue pd "tax"
  let v := rawValue pd "total"
  if s.truthy && t.truthy && v.truthy then
    match asNum s, asNum t, asNum v with
    | Option.some a, Option.some b, Option.some c =>
        .ok (if |a + b - c| > TOTALS_TOLERANCE then
              [ "Math error: " ++ ratStr a ++ " + " ++ ratStr b ++ " ≠ " ++ ratStr c ]
            else [])
    | _, _, _ => .error "TypeError"
  else .ok []

/-- `detect_pdf_type` from extraction_service.py, with the pdfminer probe's
outcome passed in as `probe` (`Except.error` is any exception it raises):
digital exactly when the probe succeeds and the stripped text is longer than
the threshold 50, scanned otherwise, never raising. -/
def detect_pdf_type (probe : Except String String) : String :=
  match probe with
  | .error _ => "scanned"
  | .ok text => if (pyStrip text).length > 50 then "digital" else "scanned"

/-- The classification step of `ingest_document` (api/v1/ingest.py):
`scanned` by default, the probe-based detection for `application/pdf`, and
`scanned` for any `image/*` mime type without consulting the probe. -/
def ingest_kind_of (mime : String) (probe : Except String String) : String :=
  if mime = "application/pdf" then detect_pdf_type probe else "scanned"

/-- `extract_pdf_text` from extraction_service.py: the probe's text,
stripped, unless the text is empty or its stripped length is under 50, in
which case the extraction fails with the insufficient-text error. -/
def extract_pdf_text (probe : Except String String) : Except String String :=
  match probe with
  | .error e => .error e
  | .ok text =>
      if text = "" ∨ (pyStrip text).length < 50 then
        .error "Insufficient text extracted from PDF"
      else .ok (pyStrip text)

/-- `extract_text` from extraction_service.py: native extraction with fixed
provider `"native-text"` and confidence 0.95 for digital PDFs; the Mistral
OCR collaborator (`ocr`, confidence 0.85) for scanned documents when
enabled; errors otherwise. -/
def extract_text (probe : Except String String) (ocr : Except String String)
    (mistralEnabled : Bool) (mime : String) (ingest_kind : String) :
    Except String (String × String × ℚ) :=
  if ingest_kind = "digital" ∧ mime = "application/pdf" then
    (extract_pdf_text probe).map (fun t => (t, "native-text", 95 / 100))
  else if ingest_kind = "scanned" then
    if mistralEnabled then ocr.map (fun t => (t, "mistral", 85 / 100))
    else .error "No OCR provider enabled for scanned documents"
  else .error ("Unsupported combination: " ++ mime ++ " + " ++ ingest_kind)

/-- The column names `check_duplicate_signature` (supabase_service.py) tries
in order against the documents table. -/
def dup_columns : List String := [ "sha256_signature", "sha256_hash", "signature" ]

/-- The per-column loop of `check_duplicate_signature`: `query col sig` is
the external store's select (its `Except.error` is any exception, for
example a missing column); the first successful query decides, a failing
column falls through to the next, and exhaustion returns false. -/
def check_dup_columns (query : String → String → Except String (List Nat))
    (sig : String) : List String → Bool
  | [] => false
  | col :: rest =>
      match query col sig with
      | .ok rows => !rows.isEmpty
      | .error _ => check_dup_columns query sig rest

/-- `check_duplicate_signature` from supabase_service.py: total (the outer
handler also returns false), so a storage failure can only ever look like
"no duplicate". -/
def check_duplicate_signature (query : String → String → Except String (List Nat))
    (sig : String) : Bool :=
  check_dup_columns query sig dup_columns

/-- The persisted per-document status map (the documents table's status
column, keyed by document id). -/
abbrev DocStore := List (Nat × String)

/-- Status of a document in the store. -/
def getStatus : DocStore → Nat → Option String
  | [], _ => Option.none
  | (i, s) :: rest, id => if i = id then Option.some s else getStatus rest id

/-- Overwrite a document's status in the store. -/
def setStatus (store : DocStore) (id : Nat) (st : String) : DocStore :=
  store.map (fun p => if p.1 = id then (p.1, st) else p)

/-- `update_document_status` from supabase_service.py: it forwards the given
status string to the store's `update_document_processing_status` RPC
(parameter `rpc`, whose error is any exception) and raises on failure.  The
current status is never read and no transition is validated — whatever
status a stage supplies overwrites the stored one. -/
def update_document_status (rpc : Nat → String → Except String Unit)
    (store : DocStore) (docId : Nat) (status : String) :
    Except String DocStore :=
  match rpc docId status with
  | .ok _ => .ok (setStatus store docId status)
  | .error e => .error e

/-- The opening of `extract_document_text` (api/v1/extract.py lines 28-35):
the status is set to `processing` unconditionally, inside a handler that
logs and swallows any failure of the update. -/
def extract_begin (rpc : Nat → String → Except String Unit)
    (store : DocStore) (docId : Nat) : DocStore :=
  match update_document_status rpc store docId "processing" with
  | .ok store' => store'
  | .error _ => store

/-- Modelled from the spec: the forward ordering of pipeline states in §4.6
(`ingested → processing → ocr_completed → parsed → transaction_created |
skipped_duplicate`), used only to state what "an earlier state" means; no
such ordering exists in the source. -/
def statusRank : String → Option Nat
  | "ingested" => Option.some 0
  | "processing" => Option.some 1
  | "ocr_completed" => Option.some 2
  | "parsed" => Option.some 3
  | "transaction_created" => Option.some 4
  | "skipped_duplicate" => Option.some 4
  | _ => Option.none

/-- Decimal-string parsing standing in for Python's `float()` on strings
(digits with an optional single dot, optional sign); `Option.none` is the
`ValueError` path.  Only the numeric and failure cases matter to the
theorems below. -/
def parseDecimal (s : String) : Option ℚ :=
  let core := fun (t : List Char) =>
    match charSplit '.' t with
    | [ip] =>
        if ip.length > 0 ∧ ip.all Char.isDigit then
          Option.some (mkRat (natOfDigits ip) 1)
        else Option.none
    | [ip, fp] =>
        if ip.length > 0 ∧ ip.all Char.isDigit ∧ fp.length > 0 ∧ fp.all Char.isDigit then
          Option.some (mkRat (natOfDigits (ip ++ fp)) (10 ^ fp.length))
        else Option.none
    | _ => Option.none
  match s.data with
  | '-' :: rest => (core rest).map Neg.neg
  | cs => core cs

/-- Python's `float(x)`: numbers and booleans coerce, numeric strings parse,
anything else raises. -/
def pyFloat : PyVal → Option ℚ
  | .num q => Option.some q
  | .bool b => Option.some (if b then 1 else 0)
  | .str s => parseDecimal s
  | _ => Option.none

/-- The argument record of the `create_transaction_from_document` commit
collaborator (supabase_service.py): note that no signature is among them. -/
structure CommitArgs where
  document_id : Nat
  user_id : String
  category_id : PyVal
  category_type : PyVal
  payment_method_id : PyVal
  amount : ℚ
  description : PyVal

/-- Outcome of the write endpoint: a `WriteResponse` or an HTTP error. -/
inductive WriteOutcome where
  | resp (transaction_id : ℤ) (status : String)
  | httpError (code : Nat) (detail : String)
deriving Repr, DecidableEq

/-- `write_transaction` from api/v1/write.py.  Collaborators: `dup` is
`check_duplicate` over the duplicate index, `userLookup` the documents-table
user query (`.ok Option.none` is the empty single-row result), `commit` the
`create_transaction_from_document` RPC collapsed to its returned expense id
or its raised error.  The second component of the result records every
commit invocation, so "without calling the commit collaborator" is an empty
list.  Logic: unless `force`, a truthy signature found in the duplicate
index short-circuits to `skipped_duplicate`; a falsy total is a 400 before
any external call; then the user is fetched and the commit attempted. -/
def write_transaction (dup : String → Bool)
    (userLookup : Nat → Except String (Option String))
    (commit : CommitArgs → Except String ℤ)
    (docId : Nat) (nj : Fields) (force : Bool) :
    WriteOutcome × List CommitArgs :=
  let sigVal := pyGetD nj "signature" (.str "")
  if !force && sigVal.truthy && dup sigVal.pyStr then
    (.resp 0 "skipped_duplicate", [])
  else
    let amount := pyGetD nj "total" .none
    if !amount.truthy then (.httpError 400 "Total amount is required", [])
    else
      match userLookup docId with
      | .error e => (.httpError 500 ("Failed to fetch document: " ++ e), [])
      | .ok Option.none => (.httpError 404 ("Document " ++ toString docId ++ " not found"), [])
      | .ok (Option.some uid) =>
          match pyFloat amount with
          | Option.none => (.httpError 500 "RPC error: could not convert total to float", [])
          | Option.some amt =>
              let args : CommitArgs :=
                ⟨ docId, uid,
                  pyGetD nj "suggested_category_id" (.num 1),
                  pyGetD nj "transaction_type" (.str "expense"),
                  pyGetD nj "suggested_payment_method_id" (.num 1),
                  amt,
                  pyGetD nj "merchant" (.str "Unknown Merchant")⟩
              match commit args with
              | .error e => (.httpError 500 ("RPC error: " ++ e), [args])
              | .ok eid => (.resp eid "created", [args])

/-- Written from the claim's words (spec §4.4 status precedence), to be
compared with `validate_parsed_data`: rejected on a critical code, else
needs_review on any reason, else needs_review below the 0.70 confidence
threshold, else approved. -/
def claimStatus (pre : List ValidationReason) (overall : ℚ) : String :=
  if pre.any (fun r =>
      r.code = "MISSING_FIELD" ∨ r.code = "INVALID_TOTAL" ∨ r.code = "FUTURE_DATE") then
    "rejected"
  else if !pre.isEmpty then "needs_review"
  else if overall < 7 / 10 then "needs_review"
  else "approved"

/-- The reasons collected by the first four rules of `validate_parsed_data`
(everything before the duplicate lookup); the error is the uncaught
exception of the currency rule. -/
def preReasons (fields : Fields) (now : ℤ) : Except String (List ValidationReason) :=
  match validate_currency fields with
  | .error e => .error e
  | .ok currencyErrs =>
      .ok (validate_schema fields ++ validate_math fields ++
           validate_date fields now ++ currencyErrs)

/-- `mime_type.startswith("image/")` from `ingest_document`. -/
def isImageMime (mime : String) : Bool :=
  "image/".data.isPrefixOf mime.data

instance {ε α : Type} [DecidableEq ε] [DecidableEq α] : DecidableEq (Except ε α) :=
  fun a b =>
    match a, b with
    | .ok x, .ok y =>
        if h : x = y then .isTrue (h ▸ rfl) else .isFalse (fun hh => h (Except.ok.inj hh))
    | .error x, .error y =>
        if h : x = y then .isTrue (h ▸ rfl) else .isFalse (fun hh => h (Except.error.inj hh))
    | .ok _, .error _ => .isFalse (fun hh => Except.noConfusion hh)
    | .error _, .ok _ => .isFalse (fun hh => Except.noConfusion hh)

lemma detect_pdf_type_ok (t : String) :
    detect_pdf_type (.ok t) =
      if (pyStrip t).length > 50 then "digital" else "scanned" := rfl

lemma extract_pdf_text_ok (t : String) :
    extract_pdf_text (.ok t) =
      if t = "" ∨ (pyStrip t).length < 50 then
        .error "Insufficient text extracted from PDF"
      else .ok (pyStrip t) := rfl

/-- C5.  For every PDF input, classify returns digital exactly when the
text-layer probe succeeds and the whitespace-stripped probed text is longer
than 50 characters; a stripped length of at most 50 yields scanned; any
probe failure yields scanned without raising; and an `image/*` mime type is
classified scanned for every probe outcome, i.e. without probing. -/
theorem classify_digital_iff_long_text :
    (∀ t : String, detect_pdf_type (.ok t) = "digital" ↔ 50 < (pyStrip t).length) ∧
    (∀ t : String, (pyStrip t).length ≤ 50 → detect_pdf_type (.ok t) = "scanned") ∧
    (∀ e : String, detect_pdf_type (.error e) = "scanned") ∧
    (∀ (mime : String) (probe : Except String String),
        isImageMime mime = true → ingest_kind_of mime probe = "scanned") ∧
    (∀ probe : Except String String,
        ingest_kind_of "application/pdf" probe = detect_pdf_type probe) := by
  refine ⟨?_, ?_, ?_, ?_, ?_⟩
  · intro t
    rw [detect_pdf_type_ok]
    constructor
    · intro h
      by_contra hlen
      rw [if_neg (by omega)] at h
      exact absurd h (by decide)
    · intro h
      rw [if_pos h]
  · intro t h
    rw [detect_pdf_type_ok, if_neg (by omega)]
  · intro e
    rfl
  · intro mime probe him
    unfold ingest_kind_of
    rw [if_neg]
    intro hm
    subst hm
    exact absurd him (by decide)
  · intro probe
    unfold ingest_kind_of
    rw [if_pos rfl]

/-- Witness for C5 at concrete inputs: a 51-character probe is digital, a
short probe is scanned, a failing probe is scanned, and an image mime type
is scanned even with a long successful probe. -/
theorem classify_digital_iff_long_text_witness :
    detect_pdf_type (.ok "aaaaaaaaaaaaaaaaaaaaaaaaaaaaaaaaaaaaaaaaaaaaaaaaaaa") = "digital" ∧
    detect_pdf_type (.ok "  short receipt  ") = "scanned" ∧
    detect_pdf_type (.error "pdfminer exploded") = "scanned" ∧
    ingest_kind_of "image/png"
      (.ok "aaaaaaaaaaaaaaaaaaaaaaaaaaaaaaaaaaaaaaaaaaaaaaaaaaa") = "scanned" :=
  ⟨ (classify_digital_iff_long_text.1 _).2 (by decide),
    classify_digital_iff_long_text.2.1 _ (by decide),
    classify_digital_iff_long_text.2.2.1 _,
    classify_digital_iff_long_text.2.2.2.1 _ _ (by decide)⟩

/-- C8.  For a digital + application/pdf extraction whose probe produced
`text`, the extraction fails with the insufficient-text error exactly when
the stripped text is shorter than 50 characters, and otherwise succeeds with
provider `"native-text"` and confidence exactly 0.95. -/
theorem native_extraction_provider_confidence :
    ∀ (text : String) (ocr : Except String String) (mistralEnabled : Bool),
      ((pyStrip text).length < 50 →
        extract_text (.ok text) ocr mistralEnabled "application/pdf" "digital" =
          .error "Insufficient text extracted from PDF") ∧
      (50 ≤ (pyStrip text).length →
        extract_text (.ok text) ocr mistralEnabled "application/pdf" "digital" =
          .ok (pyStrip text, "native-text", 95 / 100)) := by
  intro text ocr mistralEnabled
  constructor
  · intro h
    unfold extract_text
    rw [if_pos ⟨rfl, rfl⟩, extract_pdf_text_ok, if_pos (Or.inr h)]
    rfl
  · intro h
    unfold extract_text
    rw [if_pos ⟨rfl, rfl⟩, extract_pdf_text_ok, if_neg]
    · rfl
    · rintro (hempty | hshort)
      · subst hempty
        exact absurd h (by decide)
      · omega

/-- Witness for C8: a 50-character probe text succeeds as native-text at
confidence 0.95, a 49-character one fails with the insufficient-text
error. -/
theorem native_extraction_provider_confidence_witness :
    extract_text (.ok "aaaaaaaaaaaaaaaaaaaaaaaaaaaaaaaaaaaaaaaaaaaaaaaaaa")
        (.ok "ocr") true "application/pdf" "digital" =
      .ok ("aaaaaaaaaaaaaaaaaaaaaaaaaaaaaaaaaaaaaaaaaaaaaaaaaa", "native-text", 95 / 100) ∧
    extract_text (.ok "aaaaaaaaaaaaaaaaaaaaaaaaaaaaaaaaaaaaaaaaaaaaaaaaa")
        (.ok "ocr") true "application/pdf" "digital" =
      .error "Insufficient text extracted from PDF" :=
  ⟨ (native_extraction_provider_confidence _ _ _).2 (by decide),
    (native_extraction_provider_confidence _ _ _).1 (by decide)⟩

/-- C7.  The semantic signature is a function of the extracted
(merchant, date, total) triple alone — two parsed payloads with the same
extracted triple hash to the same signature, whatever the rest of their
content (and in particular whatever raw text produced them) — and a missing
merchant or date defaults to the token `unknown` while a missing total
defaults to 0, so the signature is always computable. -/
theorem semantic_signature_pure_function_of_triple :
    (∀ (hash : String → String) (pd1 pd2 : Fields),
        extracted_merchant pd1 = extracted_merchant pd2 →
        extracted_date pd1 = extracted_date pd2 →
        extracted_total pd1 = extracted_total pd2 →
        semantic_signature hash pd1 = semantic_signature hash pd2) ∧
    (∀ pd : Fields, dictGet pd "merchant" = Option.none →
        extracted_merchant pd = .str "unknown") ∧
    (∀ pd : Fields, dictGet pd "date" = Option.none →
        extracted_date pd = .str "unknown") ∧
    (∀ pd : Fields, dictGet pd "total" = Option.none →
        extracted_total pd = .num 0) := by
  refine ⟨?_, ?_, ?_, ?_⟩
  · intro hash pd1 pd2 hm hd ht
    unfold semantic_signature signature_str
    rw [hm, hd, ht]
  · intro pd h
    unfold extracted_merchant pyGetD
    rw [h]
    rfl
  · intro pd h
    unfold extracted_date pyGetD
    rw [h]
    rfl
  · intro pd h
    unfold extracted_total pyGetD
    rw [h]
    rfl

/-- Witness for C7: two payloads with different extra content but the same
extracted triple get the same signature, and the empty payload extracts the
default triple (unknown, unknown, 0). -/
theorem semantic_signature_pure_function_of_triple_witness :
    semantic_signature (fun s => s)
        [("merchant", .dict [("value", .str "Starbucks")]),
         ("date", .dict [("value", .str "2025-10-29")]),
         ("total", .dict [("value", .num 12)])] =
      semantic_signature (fun s => s)
        [("merchant", .dict [("value", .str "Starbucks"), ("confidence", .num 1)]),
         ("date", .dict [("value", .str "2025-10-29"), ("confidence", .num 1)]),
         ("total", .dict [("value", .num 12), ("confidence", .num 1)]),
         ("notes", .str "ocr noise differs")] ∧
    extracted_merchant [] = .str "unknown" ∧
    extracted_date [] = .str "unknown" ∧
    extracted_total [] = .num 0 :=
  ⟨ semantic_signature_pure_function_of_triple.1 _ _ _ rfl rfl rfl,
    semantic_signature_pure_function_of_triple.2.1 [] rfl,
    semantic_signature_pure_function_of_triple.2.2.1 [] rfl,
    semantic_signature_pure_function_of_triple.2.2.2 [] rfl⟩

/-- C10.  The duplicate-signature lookup absorbs storage failures: when
every per-column store query errors (a down store, or no signature column in
the documents table), the lookup returns false for every signature, and both
validation and the write endpoint behave exactly as they would against an
index that contains nothing — a storage failure can never produce a
DUPLICATE rejection or a skipped_duplicate result. -/
theorem duplicate_lookup_never_raises_on_store_failure :
    ∀ query : String → String → Except String (List Nat),
      (∀ c s, ∃ e, query c s = .error e) →
      (∀ sig, check_duplicate_signature query sig = false) ∧
      (∀ (fields : Fields) (sig : String) (now : ℤ),
          validate_parsed_data fields sig
              (fun s => check_duplicate_signature query s) now =
            validate_parsed_data fields sig (fun _ => false) now) ∧
      (∀ (userLookup : Nat → Except String (Option String))
         (commit : CommitArgs → Except String ℤ)
         (docId : Nat) (nj : Fields) (force : Bool),
          write_transaction (fun s => check_duplicate_signature query s)
              userLookup commit docId nj force =
            write_transaction (fun _ => false) userLookup commit docId nj force) := by
  intro query herr
  have hfalse : ∀ sig, check_duplicate_signature query sig = false := by
    intro sig
    unfold check_duplicate_signature
    have : ∀ cols : List String, check_dup_columns query sig cols = false := by
      intro cols
      induction cols with
      | nil => rfl
      | cons c rest ih =>
          obtain ⟨e, he⟩ := herr c sig
          unfold check_dup_columns
          rw [he]
          exact ih
    exact this dup_columns
  have hfun : (fun s => check_duplicate_signature query s) = (fun _ : String => false) :=
    funext hfalse
  exact ⟨hfalse, fun fields sig now => by rw [hfun], fun ul c d nj f => by rw [hfun]⟩

/-- Witness for C10 with a store whose every query fails: the lookup is
false and validation/write coincide with the empty-index behaviour. -/
theorem duplicate_lookup_never_raises_on_store_failure_witness :
    check_duplicate_signature (fun _ _ => .error "connection refused") "sig" = false ∧
    validate_parsed_data [] "sig"
        (fun s => check_duplicate_signature (fun _ _ => .error "connection refused") s) 0 =
      validate_parsed_data [] "sig" (fun _ => false) 0 ∧
    write_transaction
        (fun s => check_duplicate_signature (fun _ _ => .error "connection refused") s)
        (fun _ => .ok (Option.some "user")) (fun _ => .ok 7) 1
        [("signature", .str "sig"), ("total", .num 10)] false =
      write_transaction (fun _ => false)
        (fun _ => .ok (Option.some "user")) (fun _ => .ok 7) 1
        [("signature", .str "sig"), ("total", .num 10)] false :=
  ⟨ (duplicate_lookup_never_raises_on_store_failure _
      (fun _ _ => ⟨"connection refused", rfl⟩)).1 "sig",
    (duplicate_lookup_never_raises_on_store_failure _
      (fun _ _ => ⟨"connection refused", rfl⟩)).2.1 [] "sig" 0,
    (duplicate_lookup_never_raises_on_store_failure _
      (fun _ _ => ⟨"connection refused", rfl⟩)).2.2 _ _ 1 _ false⟩

lemma getStatus_setStatus (i : Nat) (s : String) :
    ∀ store : DocStore,
      getStatus (setStatus store i s) i = (getStatus store i).map (fun _ => s)
  | [] => rfl
  | (k, v) :: rest => by
      by_cases h : k = i
      · subst h
        show getStatus ((if k = k then (k, s) else (k, v)) :: setStatus rest k s) k = _
        rw [if_pos rfl]
        show (if k = k then Option.some s else getStatus (setStatus rest k s) k) = _
        rw [if_pos rfl]
        show _ = Option.map _ (if k = k then Option.some v else getStatus rest k)
        rw [if_pos rfl]
        rfl
      · show getStatus ((if k = i then (k, s) else (k, v)) :: setStatus rest i s) i = _
        rw [if_neg h]
        show (if k = i then Option.some v else getStatus (setStatus rest i s) i) = _
        rw [if_neg h]
        show _ = Option.map _ (if k = i then Option.some v else getStatus rest i)
        rw [if_neg h]
        exact getStatus_setStatus i s rest

/-- C3 amended.  The pipeline performs no transition validation: when the
store's RPC accepts the call, `update_document_status` records whatever
status the stage supplies, overwriting the current one whatever it is, and
the extract stage unconditionally resets a document to `processing`.  (No
code in the pipeline reads the current status or rejects a backward
transition; failures of the update at the extract call site are swallowed.)
-/
theorem update_document_status_accepts_any_transition :
    ∀ (rpc : Nat → String → Except String Unit) (store : DocStore)
      (docId : Nat) (status : String),
      (∀ i s, rpc i s = .ok ()) →
      update_document_status rpc store docId status = .ok (setStatus store docId status) ∧
      getStatus (extract_begin rpc store docId) docId =
        (getStatus store docId).map (fun _ => "processing") := by
  intro rpc store docId status hrpc
  constructor
  · unfold update_document_status
    rw [hrpc docId status]
  · unfold extract_begin update_document_status
    rw [hrpc docId "processing"]
    exact getStatus_setStatus docId "processing" store

/-- Witness for C3 at a concrete store: any supplied status is recorded, and
the extract stage moves a `parsed` document back to `processing`. -/
theorem update_document_status_accepts_any_transition_witness :
    update_document_status (fun _ _ => .ok ()) [(1, "parsed")] 1 "ingested" =
      .ok [(1, "ingested")] ∧
    getStatus (extract_begin (fun _ _ => .ok ()) [(1, "parsed")] 1) 1 =
      Option.some "processing" := by
  have h := update_document_status_accepts_any_transition
    (fun _ _ => .ok ()) [(1, "parsed")] 1 "ingested" (fun _ _ => rfl)
  exact ⟨h.1, by
    have h2 := (update_document_status_accepts_any_transition
      (fun _ _ => .ok ()) [(1, "parsed")] 1 "ingested" (fun _ _ => rfl)).2
    rw [h2]
    rfl⟩

/-- Counterexample for C3 as stated: the spec claims a stage re-entering an
earlier state is rejected as a reported logic error, but a document in the
later state `parsed` (rank 3 of the spec's ordering) is silently moved back
to `processing` (rank 1) by the extract stage's unconditional update — the
store accepts the call and no error is reported anywhere. -/
theorem status_backward_transition_silently_recorded_cex :
    update_document_status (fun _ _ => .ok ()) [(1, "parsed")] 1 "processing" =
      .ok [(1, "processing")] ∧
    extract_begin (fun _ _ => .ok ()) [(1, "parsed")] 1 = [(1, "processing")] ∧
    statusRank "parsed" = Option.some 3 ∧
    statusRank "processing" = Option.some 1 := by
  exact ⟨rfl, rfl, rfl, rfl⟩

/-- C9 amended.  The parser's advisory math note fires only when subtotal,
tax and total all carry truthy values (non-None and non-zero): in that case
a note is appended exactly when `|subtotal + tax - total|` exceeds the
tolerance, while a falsy value — absent, None, or zero — suppresses the
check entirely. -/
theorem inconsistencies_truthy_characterization :
    (∀ (pd : Fields) (a b c : ℚ),
        rawValue pd "subtotal" = .num a → rawValue pd "tax" = .num b →
        rawValue pd "total" = .num c → a ≠ 0 → b ≠ 0 → c ≠ 0 →
        inconsistencies_of pd =
          .ok (if |a + b - c| > TOTALS_TOLERANCE then
                [ "Math error: " ++ ratStr a ++ " + " ++ ratStr b ++ " ≠ " ++ ratStr c ]
              else [])) ∧
    (∀ pd : Fields,
        ((rawValue pd "subtotal").truthy = false ∨ (rawValue pd "tax").truthy = false ∨
         (rawValue pd "total").truthy = false) →
        inconsistencies_of pd = .ok []) := by
  constructor
  · intro pd a b c ha hb hc ha0 hb0 hc0
    unfold inconsistencies_of
    rw [ha, hb, hc]
    simp [PyVal.truthy, asNum, ha0, hb0, hc0]
  · intro pd h
    unfold inconsistencies_of
    rcases h with h | h | h <;> simp [h]

/-- Witness for C9: truthy subtotal 11.5, tax 1 and total 12.5 are
consistent within tolerance, so no note is appended. -/
theorem inconsistencies_truthy_characterization_witness :
    inconsistencies_of
        [("subtotal", .dict [("value", .num (23/2))]),
         ("tax", .dict [("value", .num 1)]),
         ("total", .dict [("value", .num (25/2))])] = .ok [] := by
  have h := inconsistencies_truthy_characterization.1
    [("subtotal", .dict [("value", .num (23/2))]),
     ("tax", .dict [("value", .num 1)]),
     ("total", .dict [("value", .num (25/2))])]
    (23/2) 1 (25/2) rfl rfl rfl (by norm_num) (by norm_num) (by norm_num)
  rw [h, if_neg (by norm_num [TOTALS_TOLERANCE])]

/-- Counterexample for C9 as stated: subtotal, tax and total are all present
(subtotal with value 0), their mismatch 12.5 - 1 far exceeds the tolerance,
yet no math-mismatch note is appended, because the code tests Python
truthiness rather than presence and a zero subtotal is falsy. -/
theorem math_note_zero_subtotal_skipped_cex :
    rawValue
        [("subtotal", .dict [("value", .num 0)]),
         ("tax", .dict [("value", .num 1)]),
         ("total", .dict [("value", .num (25/2))])] "subtotal" = .num 0 ∧
    rawValue
        [("subtotal", .dict [("value", .num 0)]),
         ("tax", .dict [("value", .num 1)]),
         ("total", .dict [("value", .num (25/2))])] "tax" = .num 1 ∧
    rawValue
        [("subtotal", .dict [("value", .num 0)]),
         ("tax", .dict [("value", .num 1)]),
         ("total", .dict [("value", .num (25/2))])] "total" = .num (25/2) ∧
    |(0 : ℚ) + 1 - 25/2| > TOTALS_TOLERANCE ∧
    inconsistencies_of
        [("subtotal", .dict [("value", .num 0)]),
         ("tax", .dict [("value", .num 1)]),
         ("total", .dict [("value", .num (25/2))])] = .ok [] := by
  refine ⟨rfl, rfl, rfl, ?_, ?_⟩
  · rw [show (0 : ℚ) + 1 - 25/2 = -(23/2) from by norm_num, abs_neg,
        abs_of_nonneg (by norm_num : (0 : ℚ) ≤ 23/2)]
    norm_num [TOTALS_TOLERANCE]
  · unfold inconsistencies_of
    norm_num [rawValue, pyGetD, dictGet, PyVal.truthy]

/-- C1 amended.  A positive duplicate lookup forces the status `rejected`
and appends `DUPLICATE` as the last reason, after whatever reasons the
schema, math, date and currency rules produced (they are retained, not
suppressed); the confidence step and the badges are skipped. -/
theorem validate_duplicate_appends_duplicate_reason :
    ∀ (fields : Fields) (sig : String) (dup : String → Bool) (now : ℤ)
      (pre : List ValidationReason),
      dup sig = true → preReasons fields now = .ok pre →
      validate_parsed_data fields sig dup now =
        .ok ⟨ "rejected", pre ++ [duplicateReason], []⟩ := by
  intro fields sig dup now pre hdup hpre
  unfold preReasons at hpre
  unfold validate_parsed_data
  cases hcur : validate_currency fields with
  | error e =>
      rw [hcur] at hpre
      exact absurd hpre (by simp)
  | ok cur =>
      rw [hcur] at hpre
      injection hpre with hpre
      simp only [hdup, if_true]
      rw [hpre]

/-- Witness for C1 amended: an empty fields dict collects three
MISSING_FIELD reasons, and a positive duplicate lookup returns rejected with
DUPLICATE appended after them. -/
theorem validate_duplicate_appends_duplicate_reason_witness :
    validate_parsed_data [] "sig" (fun _ => true) 0 =
      .ok ⟨ "rejected",
        [⟨ "MISSING_FIELD", "Required field 'merchant' is missing"⟩,
         ⟨ "MISSING_FIELD", "Required field 'date' is missing"⟩,
         ⟨ "MISSING_FIELD", "Required field 'total' is missing"⟩] ++ [duplicateReason],
        []⟩ :=
  validate_duplicate_appends_duplicate_reason [] "sig" (fun _ => true) 0 _ rfl (by decide)

/-- Counterexample for C1 as stated: with an empty fields dict and a
signature present in the duplicate index, the result is rejected but its
reasons are the three MISSING_FIELD reasons followed by DUPLICATE — not the
single reason DUPLICATE the claim asserts. -/
theorem validate_duplicate_only_reason_cex :
    (validate_parsed_data [] "sig" (fun _ => true) 0).map
        (fun r => (r.status, r.reasons.map ValidationReason.code)) =
      .ok ("rejected", ["MISSING_FIELD", "MISSING_FIELD", "MISSING_FIELD", "DUPLICATE"]) ∧
    (validate_parsed_data [] "sig" (fun _ => true) 0).map
        (fun r => r.reasons.map ValidationReason.code) ≠ .ok ["DUPLICATE"] := by
  constructor <;> decide

/-- C6 amended.  For a present, truthy string date: an unparsable value
yields INVALID_DATE_FORMAT; a parsed date is flagged FUTURE_DATE exactly
when its midnight timestamp is after the current instant and DATE_TOO_OLD
exactly when it is before the current instant minus 1825 days.  Because the
comparison uses the current instant rather than the current day, a date
exactly 1825 days before the current day is flagged DATE_TOO_OLD whenever
the current time is past midnight; only dates 1824 days old or newer are
safe. -/
theorem validate_date_characterization :
    ∀ (fields : Fields) (d : List (String × PyVal)) (s : String) (now : ℤ),
      dictGet fields "date" = Option.some (.dict d) →
      dictGet d "value" = Option.some (.str s) →
      s ≠ "" →
      ((strptimeYmd s = Option.none →
          validate_date fields now =
            [⟨ "INVALID_DATE_FORMAT", "Date '" ++ s ++ "' is not in YYYY-MM-DD format"⟩]) ∧
       (∀ ymd, strptimeYmd s = Option.some ymd →
          validate_date fields now =
            (if midnightSec ymd > now then
              [⟨ "FUTURE_DATE", "Transaction date " ++ s ++ " is in the future"⟩]
            else []) ++
            (if midnightSec ymd < now - FIVE_YEARS_SEC then
              [⟨ "DATE_TOO_OLD", "Transaction date " ++ s ++ " is more than 5 years old"⟩]
            else [])) ∧
       (∀ (ymd : Nat × Nat × Nat) (nowDay t : ℤ), strptimeYmd s = Option.some ymd →
          midnightSec ymd = (nowDay - 1825) * 86400 →
          now = nowDay * 86400 + t → 0 < t →
          (⟨ "DATE_TOO_OLD", "Transaction date " ++ s ++ " is more than 5 years old"⟩ :
              ValidationReason) ∈ validate_date fields now)) := by
  intro fields d s now hf hv hs
  have hbe : (s == "") = false := beq_eq_false_iff_ne.mpr hs
  have hred : validate_date fields now =
      (match strptimeYmd s with
       | Option.none =>
           [⟨ "INVALID_DATE_FORMAT", "Date '" ++ s ++ "' is not in YYYY-MM-DD format"⟩]
       | Option.some ymd =>
           (if midnightSec ymd > now then
             [⟨ "FUTURE_DATE", "Transaction date " ++ s ++ " is in the future"⟩]
           else []) ++
           (if midnightSec ymd < now - FIVE_YEARS_SEC then
             [⟨ "DATE_TOO_OLD", "Transaction date " ++ s ++ " is more than 5 years old"⟩]
           else [])) := by
    simp only [validate_date, hf, hv, Option.getD, PyVal.truthy, hbe,
      Bool.not_false, Bool.not_true, Bool.false_eq_true, if_false]
  have h2 : ∀ ymd, strptimeYmd s = Option.some ymd →
      validate_date fields now =
        (if midnightSec ymd > now then
          [⟨ "FUTURE_DATE", "Transaction date " ++ s ++ " is in the future"⟩]
        else []) ++
        (if midnightSec ymd < now - FIVE_YEARS_SEC then
          [⟨ "DATE_TOO_OLD", "Transaction date " ++ s ++ " is more than 5 years old"⟩]
        else []) := by
    intro ymd hp
    rw [hred, hp]
  refine ⟨?_, h2, ?_⟩
  · intro hp
    rw [hred, hp]
  · intro ymd nowDay t hp hmid hnow ht
    have hcond : midnightSec ymd < now - FIVE_YEARS_SEC := by
      simp only [FIVE_YEARS_SEC]
      rw [hmid, hnow]
      omega
    rw [h2 ymd hp, if_pos hcond]
    exact List.mem_append_right _ (List.mem_singleton_self _)

/-- Witness for C6 at a concrete instant (midnight of 2026-10-12): the
future date 2027-01-01 is flagged FUTURE_DATE and nothing else. -/
theorem validate_date_characterization_witness :
    validate_date [("date", .dict [("value", .str "2027-01-01")])]
        (days_from_civil 2026 10 12 * 86400) =
      [⟨ "FUTURE_DATE", "Transaction date 2027-01-01 is in the future"⟩] := by
  have h := (validate_date_characterization
      [("date", .dict [("value", .str "2027-01-01")])]
      [("value", .str "2027-01-01")] "2027-01-01"
      (days_from_civil 2026 10 12 * 86400) rfl rfl (by decide)).2.1
      (2027, 1, 1) (by decide)
  rw [h, if_pos (by decide), if_neg (by decide)]
  decide

/-- Counterexample for C6 as stated: at one hour past midnight on
2026-10-12, the date 2021-10-13 — exactly 1825 days before the current day,
which the claim calls the unflagged boundary — is flagged DATE_TOO_OLD,
because the code compares against `datetime.now()` minus 1825 days, an
instant one hour past the boundary midnight. -/
theorem date_exact_1825_boundary_flagged_cex :
    days_from_civil 2026 10 12 - days_from_civil 2021 10 13 = 1825 ∧
    validate_date [("date", .dict [("value", .str "2021-10-13")])]
        (days_from_civil 2026 10 12 * 86400 + 3600) =
      [⟨ "DATE_TOO_OLD", "Transaction date 2021-10-13 is more than 5 years old"⟩] := by
  constructor <;> decide

/-- C4 amended.  With `force` false, a nonempty signature found in the
duplicate index short-circuits to `skipped_duplicate` with the commit
collaborator never invoked; with `force` true the duplicate check is skipped
and the commit is attempted; and when the signature is not in the index the
call commits and returns `created` — but nothing in the write path records
the signature anywhere (the commit collaborator does not even receive it),
so a repeated call against the unchanged index returns `created` again
rather than `skipped_duplicate`. -/
theorem write_duplicate_skip_and_force_semantics :
    (∀ (dup : String → Bool) (ul : Nat → Except String (Option String))
       (commit : CommitArgs → Except String ℤ) (docId : Nat) (nj : Fields) (s : String),
        pyGetD nj "signature" (.str "") = .str s → s ≠ "" → dup s = true →
        write_transaction dup ul commit docId nj false =
          (.resp 0 "skipped_duplicate", [])) ∧
    (∀ (dup : String → Bool) (ul : Nat → Except String (Option String))
       (commit : CommitArgs → Except String ℤ) (docId : Nat) (nj : Fields)
       (q : ℚ) (uid : String),
        pyGetD nj "total" .none = .num q → q ≠ 0 → ul docId = .ok (Option.some uid) →
        (write_transaction dup ul commit docId nj true).2 ≠ []) ∧
    (∀ (dup : String → Bool) (ul : Nat → Except String (Option String))
       (commit : CommitArgs → Except String ℤ) (docId : Nat) (nj : Fields)
       (s : String) (q : ℚ) (uid : String) (eid : ℤ),
        pyGetD nj "signature" (.str "") = .str s → dup s = false →
        pyGetD nj "total" .none = .num q → q ≠ 0 → ul docId = .ok (Option.some uid) →
        commit ⟨ docId, uid,
            pyGetD nj "suggested_category_id" (.num 1),
            pyGetD nj "transaction_type" (.str "expense"),
            pyGetD nj "suggested_payment_method_id" (.num 1),
            q,
            pyGetD nj "merchant" (.str "Unknown Merchant")⟩ = .ok eid →
        write_transaction dup ul commit docId nj false =
          (.resp eid "created",
           [⟨ docId, uid,
              pyGetD nj "suggested_category_id" (.num 1),
              pyGetD nj "transaction_type" (.str "expense"),
              pyGetD nj "suggested_payment_method_id" (.num 1),
              q,
              pyGetD nj "merchant" (.str "Unknown Merchant")⟩])) := by
  refine ⟨?_, ?_, ?_⟩
  · intro dup ul commit docId nj s hsig hs hdup
    have ht : (PyVal.str s).truthy = true := by
      simp [PyVal.truthy, hs]
    unfold write_transaction
    rw [hsig]
    simp only [ht, PyVal.pyStr, hdup, Bool.not_false, Bool.true_and, Bool.and_self, if_true]
  · intro dup ul commit docId nj q uid htot hq hul
    have ht : (PyVal.num q).truthy = true := by
      simp [PyVal.truthy, hq]
    unfold write_transaction
    rw [htot]
    simp only [Bool.not_true, Bool.false_and, Bool.false_eq_true, if_false, ht,
      Bool.not_false, Bool.not_true, hul]
    cases hc : commit ⟨ docId, uid,
        pyGetD nj "suggested_category_id" (.num 1),
        pyGetD nj "transaction_type" (.str "expense"),
        pyGetD nj "suggested_payment_method_id" (.num 1),
        q,
        pyGetD nj "merchant" (.str "Unknown Merchant")⟩ with
    | error e => simp [pyFloat, hc]
    | ok eid => simp [pyFloat, hc]
  · intro dup ul commit docId nj s q uid eid hsig hdup htot hq hul hc
    have ht : (PyVal.num q).truthy = true := by
      simp [PyVal.truthy, hq]
    unfold write_transaction
    rw [hsig, htot]
    simp only [PyVal.pyStr, hdup, Bool.and_false, Bool.not_false, Bool.true_and,
      Bool.false_eq_true, if_false, ht, Bool.not_true, hul]
    simp [pyFloat, hc]

/-- Witness for C4 amended: with the signature in the index and force
false, the write is skipped with no commit call; with force true the commit
is attempted despite the duplicate. -/
theorem write_duplicate_skip_and_force_semantics_witness :
    write_transaction (fun _ => true) (fun _ => .ok (Option.some "u")) (fun _ => .ok 7) 1
        [("signature", .str "sig"), ("total", .num 10)] false =
      (.resp 0 "skipped_duplicate", []) ∧
    (write_transaction (fun _ => true) (fun _ => .ok (Option.some "u")) (fun _ => .ok 7) 1
        [("signature", .str "sig"), ("total", .num 10)] true).2 ≠ [] :=
  ⟨ write_duplicate_skip_and_force_semantics.1 _ _ _ 1 _ "sig" rfl (by decide) rfl,
    write_duplicate_skip_and_force_semantics.2.1 _ _ _ 1 _ 10 "u" rfl (by norm_num) rfl⟩

/-- Counterexample for C4 as stated: the claim says two writes with the same
signature and force false yield `created` then `skipped_duplicate`.  But the
write path hands the duplicate index nothing to record — `CommitArgs`
carries no signature and no other collaborator call receives it — so the
index is the same at the second call, and an identical second call returns
`created` again, not `skipped_duplicate`. -/
theorem write_twice_same_signature_both_created_cex :
    (write_transaction (fun _ => false) (fun _ => .ok (Option.some "user"))
        (fun _ => .ok 7) 1 [("signature", .str "sig"), ("total", .num 10)] false).1 =
      .resp 7 "created" ∧
    (write_transaction (fun _ => false) (fun _ => .ok (Option.some "user"))
        (fun _ => .ok 7) 1 [("signature", .str "sig"), ("total", .num 10)] false).1 =
      .resp 7 "created" ∧
    (WriteOutcome.resp 7 "created") ≠ .resp 0 "skipped_duplicate" := by
  refine ⟨by decide, by decide, by decide⟩

lemma foldl_preserve {α β : Type} (step : List β → α → List β) (P : β → Prop)
    (hstep : ∀ acc x r, r ∈ step acc x → r ∈ acc ∨ P r) :
    ∀ (l : List α) (acc : List β), ∀ r ∈ l.foldl step acc, r ∈ acc ∨ P r := by
  intro l
  induction l with
  | nil => intro acc r hr; exact Or.inl hr
  | cons x xs ih =>
      intro acc r hr
      rcases ih (step acc x) r hr with h | h
      · exact hstep acc x r h
      · exact Or.inr h

lemma validate_schema_not_dup (fields : Fields) :
    ∀ r ∈ validate_schema fields, r.code ≠ "DUPLICATE" := by
  intro r hr
  unfold validate_schema at hr
  have := foldl_preserve _ (fun r : ValidationReason => r.code ≠ "DUPLICATE")
    ?_ required_fields [] r hr
  · rcases this with h | h
    · cases h
    · exact h
  · intro acc f r' hr'
    rcases hdg : dictGet fields f with _ | v
    · simp only [hdg] at hr'
      rcases List.mem_append.mp hr' with h | h
      · exact Or.inl h
      · right
        rcases List.mem_singleton.mp h with rfl
        exact (by decide : ("MISSING_FIELD" : String) ≠ "DUPLICATE")
    · cases v <;> simp only [hdg] at hr' <;> try exact Or.inl hr'
      split at hr'
      · rcases List.mem_append.mp hr' with h | h
        · exact Or.inl h
        · right
          rcases List.mem_singleton.mp h with rfl
          exact (by decide : ("EMPTY_FIELD" : String) ≠ "DUPLICATE")
      · exact Or.inl hr'

lemma validate_date_not_dup (fields : Fields) (now : ℤ) :
    ∀ r ∈ validate_date fields now, r.code ≠ "DUPLICATE" := by
  intro r hr
  unfold validate_date at hr
  rcases h1 : dictGet fields "date" with _ | v
  · simp only [h1] at hr
    cases hr
  · simp only [h1] at hr
    cases v with
    | dict d =>
        dsimp only at hr
        rcases hv : (dictGet d "value").getD PyVal.none with _ | s | q | b | dd | l
        · rw [hv] at hr; split at hr <;> simp_all
        · rw [hv] at hr
          split at hr
          · cases hr
          · rcases hp : strptimeYmd s with _ | ymd <;> simp only [hp] at hr
            · simp at hr; subst hr; simp
            · rcases List.mem_append.mp hr with h | h <;> split at h <;> simp_all
        · rw [hv] at hr; split at hr <;> simp_all
        · rw [hv] at hr; split at hr <;> simp_all
        · rw [hv] at hr; split at hr <;> simp_all
        · rw [hv] at hr; split at hr <;> simp_all
    | none => simp at hr; subst hr; simp
    | str s => simp at hr; subst hr; simp
    | num q => simp at hr; subst hr; simp
    | bool b => simp at hr; subst hr; simp
    | list l => simp at hr; subst hr; simp

/-- Reasons visible in the outcome of the `try:` body of `validate_math`
(the ones accumulated before a possible exception). -/
def reasonsOfExc :
    Except (List ValidationReason × String) (List ValidationReason) →
      List ValidationReason
  | .ok errs => errs
  | .error (errs, _) => errs

lemma mem_ite_singleton {c : Prop} [Decidable c] {r x : ValidationReason}
    (h : r ∈ (if c then [x] else [])) : r = x := by
  split at h
  · exact List.mem_singleton.mp h
  · cases h

lemma totalChecks_not_dup (total : ℚ) :
    ∀ r ∈ totalChecks total, r.code ≠ "DUPLICATE" := by
  intro r hr
  rcases List.mem_append.mp hr with h | h <;> rw [mem_ite_singleton h] <;>
    exact fun hc => by simp at hc

lemma mathCheck_not_dup (subtotalOpt taxOpt : Option PyVal) (total : ℚ)
    (errs2 : List ValidationReason) (h2 : ∀ r ∈ errs2, r.code ≠ "DUPLICATE") :
    ∀ r ∈ reasonsOfExc (mathCheck subtotalOpt taxOpt total errs2),
      r.code ≠ "DUPLICATE" := by
  intro r hr
  unfold mathCheck at hr
  repeat' split at hr
  all_goals simp only [reasonsOfExc] at hr
  all_goals try exact h2 r hr
  all_goals (
    rcases List.mem_append.mp hr with h | h
    · exact h2 r h
    · first
      | (rcases List.mem_singleton.mp h with rfl
         exact fun hc => by simp at hc)
      | cases h)

lemma itemsCheck_not_dup (fields : Fields) (subtotalOpt : Option PyVal)
    (errs3 : List ValidationReason) (h3 : ∀ r ∈ errs3, r.code ≠ "DUPLICATE") :
    ∀ r ∈ reasonsOfExc (itemsCheck fields subtotalOpt errs3),
      r.code ≠ "DUPLICATE" := by
  intro r hr
  unfold itemsCheck at hr
  repeat' split at hr
  all_goals simp only [reasonsOfExc] at hr
  all_goals try exact h3 r hr
  all_goals (
    rcases List.mem_append.mp hr with h | h
    · exact h3 r h
    · first
      | (rcases List.mem_singleton.mp h with rfl
         exact fun hc => by simp at hc)
      | cases h)

lemma validate_math_go_not_dup (fields : Fields) :
    ∀ r ∈ reasonsOfExc (validate_math_go fields), r.code ≠ "DUPLICATE" := by
  intro r hr
  unfold validate_math_go at hr
  cases h1 : getValueField fields "subtotal" with
  | error e => rw [h1] at hr; cases hr
  | ok subtotalOpt =>
  rw [h1] at hr
  cases h2 : getValueField fields "tax" with
  | error e => rw [h2] at hr; cases hr
  | ok taxOpt =>
  rw [h2] at hr
  cases h3 : getValueField fields "total" with
  | error e => rw [h3] at hr; cases hr
  | ok totalOpt =>
  rw [h3] at hr
  cases totalOpt with
  | none => cases hr
  | some totalV =>
  dsimp only at hr
  cases h4 : asNum totalV with
  | none => rw [h4] at hr; cases hr
  | some total =>
  rw [h4] at hr
  dsimp only at hr
  cases h5 : mathCheck subtotalOpt taxOpt total (totalChecks total) with
  | error e =>
      rw [h5] at hr
      have := mathCheck_not_dup subtotalOpt taxOpt total (totalChecks total)
        (totalChecks_not_dup total) r
      rw [h5] at this
      exact this hr
  | ok errs3 =>
      rw [h5] at hr
      have herrs3 : ∀ r ∈ errs3, r.code ≠ "DUPLICATE" := by
        have := mathCheck_not_dup subtotalOpt taxOpt total (totalChecks total)
          (totalChecks_not_dup total)
        rw [h5] at this
        exact this
      exact itemsCheck_not_dup fields subtotalOpt errs3 herrs3 r hr

lemma validate_math_not_dup (fields : Fields) :
    ∀ r ∈ validate_math fields, r.code ≠ "DUPLICATE" := by
  intro r hr
  unfold validate_math at hr
  cases hgo : validate_math_go fields with
  | ok errs =>
      rw [hgo] at hr
      have := validate_math_go_not_dup fields r
      rw [hgo] at this
      exact this hr
  | error p =>
      obtain ⟨errs, e⟩ := p
      rw [hgo] at hr
      rcases List.mem_append.mp hr with h | h
      · have := validate_math_go_not_dup fields r
        rw [hgo] at this
        exact this h
      · rcases List.mem_singleton.mp h with rfl
        exact (by decide : ("VALIDATION_ERROR" : String) ≠ "DUPLICATE")

lemma validate_currency_not_dup (fields : Fields) (cur : List ValidationReason)
    (h : validate_currency fields = .ok cur) :
    ∀ r ∈ cur, r.code ≠ "DUPLICATE" := by
  intro r hr
  unfold validate_currency at h
  rcases h1 : dictGet fields "currency" with _ | v
  · rw [h1] at h
    injection h with h
    subst h
    cases hr
  · rw [h1] at h
    cases v with
    | dict d =>
        dsimp only at h
        split at h
        · injection h with h
          subst h
          rcases List.mem_singleton.mp hr with rfl
          exact (by decide : ("UNSUPPORTED_CURRENCY" : String) ≠ "DUPLICATE")
        · injection h with h
          subst h
          cases hr
    | none => exact Except.noConfusion h
    | str s => exact Except.noConfusion h
    | num q => exact Except.noConfusion h
    | bool b => exact Except.noConfusion h
    | list l => exact Except.noConfusion h

lemma preReasons_not_dup (fields : Fields) (now : ℤ) (pre : List ValidationReason)
    (h : preReasons fields now = .ok pre) :
    ∀ r ∈ pre, r.code ≠ "DUPLICATE" := by
  intro r hr
  unfold preReasons at h
  cases hcur : validate_currency fields with
  | error e => rw [hcur] at h; cases h
  | ok cur =>
      rw [hcur] at h
      injection h with h
      subst h
      rcases List.mem_append.mp hr with h1 | h1
      · rcases List.mem_append.mp h1 with h2 | h2
        · rcases List.mem_append.mp h2 with h3 | h3
          · exact validate_schema_not_dup fields r h3
          · exact validate_math_not_dup fields r h3
        · exact validate_date_not_dup fields now r h2
      · exact validate_currency_not_dup fields cur hcur r h1

lemma any_congr_mem {l : List ValidationReason} {f g : ValidationReason → Bool}
    (h : ∀ x ∈ l, f x = g x) : l.any f = l.any g := by
  induction l with
  | nil => rfl
  | cons x t ih =>
      simp only [List.any_cons, h x (by simp)]
      rw [ih (fun y hy => h y (by simp [hy]))]

lemma critical_contains_eq (c : String) (h : c ≠ "DUPLICATE") :
    criticalCodes.contains c =
      decide (c = "MISSING_FIELD" ∨ c = "INVALID_TOTAL" ∨ c = "FUTURE_DATE") := by
  by_cases h1 : c = "MISSING_FIELD"
  · subst h1; decide
  · by_cases h2 : c = "INVALID_TOTAL"
    · subst h2; decide
    · by_cases h3 : c = "FUTURE_DATE"
      · subst h3; decide
      · simp [criticalCodes, h1, h2, h3, h]

lemma mapM_asNum_map_num (qs : List ℚ) :
    (qs.map PyVal.num).mapM asNum = Option.some qs := by
  induction qs with
  | nil => rfl
  | cons q t ih =>
      rw [List.map_cons, List.mapM_cons, ih]
      rfl

/-- C2.  For a non-duplicate run, the status follows the claimed precedence
over the collected reasons: a MISSING_FIELD / INVALID_TOTAL / FUTURE_DATE
reason rejects; else any reason needs review; else an overall confidence
strictly below 0.70 needs review with a LOW_CONFIDENCE reason appended;
else (including exactly 0.70) the run is approved.  The overall confidence
is the arithmetic mean of the confidences of exactly the critical fields
present as structured values, 0.5 when none are. -/
theorem validate_status_precedence :
    (∀ (fields : Fields) (sig : String) (dup : String → Bool) (now : ℤ)
       (pre : List ValidationReason),
        dup sig = false → preReasons fields now = .ok pre →
        (validate_parsed_data fields sig dup now).map
            (fun r => (r.status, r.reasons)) =
          .ok ( claimStatus pre (calculate_overall_confidence fields),
                pre ++
                  (if pre = [] ∧ calculate_overall_confidence fields < 7 / 10 then
                    [lowConfidenceReason (calculate_overall_confidence fields)]
                  else []) )) ∧
    (∀ (fields : Fields) (qs : List ℚ),
        required_fields.filterMap
            (fun f =>
              match dictGet fields f with
              | Option.some (.dict d) => Option.some (pyGetD d "confidence" (.num 0))
              | _ => Option.none) = qs.map PyVal.num →
        (qs = [] → calculate_overall_confidence fields = 1 / 2) ∧
        (qs ≠ [] → calculate_overall_confidence fields = qs.sum / (qs.length : ℚ))) := by
  constructor
  · intro fields sig dup now pre hdup hpre
    have hnd := preReasons_not_dup fields now pre hpre
    unfold preReasons at hpre
    unfold validate_parsed_data
    cases hcur : validate_currency fields with
    | error e => rw [hcur] at hpre; cases hpre
    | ok cur =>
        rw [hcur] at hpre
        injection hpre with hpre
        dsimp only
        rw [hpre, hdup, if_neg (by decide : ¬(false = true))]
        have hany : (pre.any fun r => criticalCodes.contains r.code) =
            (pre.any fun r =>
              decide (r.code = "MISSING_FIELD" ∨ r.code = "INVALID_TOTAL" ∨
                r.code = "FUTURE_DATE")) :=
          any_congr_mem (fun x hx => critical_contains_eq x.code (hnd x hx))
        rw [hany]
        by_cases hcrit : (pre.any fun r =>
            decide (r.code = "MISSING_FIELD" ∨ r.code = "INVALID_TOTAL" ∨
              r.code = "FUTURE_DATE")) = true
    -- critical reason present: rejected, reasons unchanged
        · have hne : pre ≠ [] := by
            intro h
            subst h
            simp at hcrit
          unfold claimStatus
          rw [if_pos hcrit, if_pos hcrit]
          simp [Except.map, hne]
        · unfold claimStatus
          rw [if_neg hcrit, if_neg hcrit]
          by_cases hemp : (!pre.isEmpty) = true
    -- some non-critical reason: needs review, reasons unchanged
          · have hne : pre ≠ [] := by
              intro h
              subst h
              simp at hemp
            rw [if_pos hemp, if_pos hemp]
            simp [Except.map, hne]
    -- no reason at all: the low-confidence gate decides
          · rw [if_neg hemp, if_neg hemp]
            have hnil : pre = [] := by
              simpa using hemp
            subst hnil
            by_cases hc7 : calculate_overall_confidence fields < 7 / 10
            · rw [if_pos hc7, if_pos hc7]
              simp [Except.map, hc7]
            · rw [if_neg hc7, if_neg hc7]
              simp [Except.map, hc7]
  · intro fields qs hq
    unfold calculate_overall_confidence
    rw [hq]
    dsimp only
    constructor
    · intro h
      subst h
      rfl
    · intro h
      rw [show (qs.map PyVal.num).isEmpty = false from by
          cases hq' : qs.map PyVal.num
          · exact absurd (List.map_eq_nil_iff.mp hq') h
          · rfl,
        mapM_asNum_map_num]
      simp

/-- Witness for C2: merchant/date/total present with confidence 0.9 each and
no rule violations give an approved run with no reasons; and the
overall-confidence computation averages the three 0.9 values. -/
theorem validate_status_precedence_witness :
    (validate_parsed_data
        [("merchant", .dict [("value", .str "Starbucks"), ("confidence", .num (9/10))]),
         ("date", .dict [("value", .str "2025-10-29"), ("confidence", .num (9/10))]),
         ("total", .dict [("value", .num 12), ("confidence", .num (9/10))])]
        "sig" (fun _ => false) (days_from_civil 2026 10 12 * 86400)).map
        (fun r => (r.status, r.reasons)) =
      .ok ("approved", []) ∧
    calculate_overall_confidence
        [("merchant", .dict [("value", .str "Starbucks"), ("confidence", .num (9/10))]),
         ("date", .dict [("value", .str "2025-10-29"), ("confidence", .num (9/10))]),
         ("total", .dict [("value", .num 12), ("confidence", .num (9/10))])] = 9/10 := by
  have hconf : calculate_overall_confidence
      [("merchant", .dict [("value", .str "Starbucks"), ("confidence", .num (9/10))]),
       ("date", .dict [("value", .str "2025-10-29"), ("confidence", .num (9/10))]),
       ("total", .dict [("value", .num 12), ("confidence", .num (9/10))])] = 9/10 := by
    have h := (validate_status_precedence.2
      [("merchant", .dict [("value", .str "Starbucks"), ("confidence", .num (9/10))]),
       ("date", .dict [("value", .str "2025-10-29"), ("confidence", .num (9/10))]),
       ("total", .dict [("value", .num 12), ("confidence", .num (9/10))])]
      [9/10, 9/10, 9/10] rfl).2 (by simp)
    rw [h]
    norm_num
  refine ⟨?_, hconf⟩
  have h := validate_status_precedence.1
    [("merchant", .dict [("value", .str "Starbucks"), ("confidence", .num (9/10))]),
     ("date", .dict [("value", .str "2025-10-29"), ("confidence", .num (9/10))]),
     ("total", .dict [("value", .num 12), ("confidence", .num (9/10))])]
    "sig" (fun _ => false) (days_from_civil 2026 10 12 * 86400) [] rfl (by decide)
  rw [h, hconf]
  rw [if_neg (fun hand => by norm_num at hand)]
  unfold claimStatus
  norm_num

end TrackerApi
